import Mathlib

/-!
Shallow embedding of `scripts/generate-splash.py`, a one-shot asset
generator that renders a branded splash screen and saves it at three
scales together with an asset-catalog manifest.

Python numeric semantics are modelled over exact rationals: `int(x)`
(truncation toward zero) is `pyInt`, and `//` on integers (floor
division) is `Int.fdiv`.  Library raster primitives (Pillow's blur,
resize, text rasterisation) are modelled structurally: each stage
carries the image mode and pixel dimensions, and content-level stages
(the gradient and the glow loop) are embedded exactly as the pixel /
draw-call functions the source computes.
-/

namespace GenerateSplash

/-- Python `int(x)` on a real value: truncation toward zero. -/
def pyInt (q : ℚ) : ℤ := if 0 ≤ q then q.floor else q.ceil

theorem pyInt_eq_floor (q : ℚ) (h : 0 ≤ q) : pyInt q = ⌊q⌋ := by
  rw [pyInt, if_pos h, Rat.floor_def, Rat.floor_def']

theorem pyInt_eq_of (q : ℚ) (n : ℤ) (h0 : 0 ≤ q) (h1 : (n : ℚ) ≤ q)
    (h2 : q < n + 1) : pyInt q = n := by
  rw [pyInt_eq_floor q h0]
  exact Int.floor_eq_iff.mpr ⟨h1, h2⟩

/-- An RGB color as the source uses it: a triple of integers. -/
def Color : Type := ℤ × ℤ × ℤ

instance : DecidableEq Color := by
  unfold Color
  infer_instance

/-- Canvas width `W = 1290` (iPhone 14 Pro Max native, 3x). -/
def W : ℕ := 1290

/-- Canvas height `H = 2796`. -/
def H : ℕ := 2796

/-- Color constant `BG_TOP = (10, 0, 20)`. -/
def BG_TOP : Color := (10, 0, 20)

/-- Color constant `BG_MID = (26, 5, 48)`. -/
def BG_MID : Color := (26, 5, 48)

/-- Color constant `BG_BOT = (13, 0, 32)`. -/
def BG_BOT : Color := (13, 0, 32)

/-- Color constant `PURPLE = (168, 85, 247)`. -/
def PURPLE : Color := (168, 85, 247)

/-- Color constant `PURPLE_LT = (192, 132, 252)`. -/
def PURPLE_LT : Color := (192, 132, 252)

/-- One channel of `lerp_color`: `int(a + (b - a) * t)`. -/
def lerp_channel (a b : ℤ) (t : ℚ) : ℤ := pyInt ((a : ℚ) + ((b : ℚ) - (a : ℚ)) * t)

/-- Source `lerp_color(c1, c2, t)`: per-channel `int(a + (b - a) * t)`
over the zipped channel pairs. -/
def lerp_color (c1 c2 : Color) (t : ℚ) : Color :=
  (lerp_channel c1.1 c2.1 t, lerp_channel c1.2.1 c2.2.1 t, lerp_channel c1.2.2 c2.2.2 t)

/-- Source `mid_y = int(H * 0.4)`: the gradient midpoint row. -/
def mid_y : ℤ := pyInt ((H : ℚ) * (4 / 10))

/-- The gradient color of row `y` as computed by the loop body of
`draw_gradient`: rows at or above `mid_y` interpolate `BG_TOP → BG_MID`
at `t = y / mid_y`; rows below interpolate `BG_MID → BG_BOT` at
`t = (y - mid_y) / (H - mid_y)`. -/
def gradientColor (y : ℕ) : Color :=
  if (y : ℤ) ≤ mid_y then
    lerp_color BG_TOP BG_MID ((y : ℚ) / (mid_y : ℚ))
  else
    lerp_color BG_MID BG_BOT (((y : ℚ) - (mid_y : ℚ)) / ((H : ℚ) - (mid_y : ℚ)))

/-- A canvas of RGB pixels, addressed by column then row. -/
def Canvas : Type := ℕ → ℕ → Color

/-- Drawing the horizontal line `draw.line([(0, y), (W, y)], fill=color)`:
every pixel of row `y` receives `color`. -/
def drawHLine (c : Canvas) (y : ℕ) (color : Color) : Canvas :=
  fun x y2 => if y2 = y then color else c x y2

/-- Source `draw_gradient(img)`: for `y in range(H)` fill row `y` with
its interpolated color. -/
def draw_gradient (c : Canvas) : Canvas :=
  (List.range H).foldl (fun acc y => drawHLine acc y (gradientColor y)) c

theorem mid_y_eq : mid_y = 1118 := by
  rw [mid_y]
  exact pyInt_eq_of _ 1118 (by norm_num [H]) (by norm_num [H]) (by norm_num [H])

theorem pyInt_intCast (n : ℤ) (h : 0 ≤ n) : pyInt (n : ℚ) = n := by
  rw [pyInt_eq_floor _ (by exact_mod_cast h)]
  exact Int.floor_intCast n

/-- A color whose components are integers in `[0, 255]`. -/
def inRange (c : Color) : Prop :=
  0 ≤ c.1 ∧ c.1 ≤ 255 ∧ 0 ≤ c.2.1 ∧ c.2.1 ≤ 255 ∧ 0 ≤ c.2.2 ∧ c.2.2 ≤ 255

theorem lerp_channel_floor (a b : ℤ) (t : ℚ) (ha : 0 ≤ a) (hb : 0 ≤ b)
    (ht0 : 0 ≤ t) (ht1 : t ≤ 1) :
    lerp_channel a b t = ⌊(a : ℚ) + ((b : ℚ) - (a : ℚ)) * t⌋ := by
  apply pyInt_eq_floor
  have ha2 : (0 : ℚ) ≤ (a : ℚ) := by exact_mod_cast ha
  have hb2 : (0 : ℚ) ≤ (b : ℚ) := by exact_mod_cast hb
  nlinarith [mul_nonneg ha2 (sub_nonneg.mpr ht1), mul_nonneg hb2 ht0]

theorem lerp_channel_zero (a b : ℤ) (ha : 0 ≤ a) : lerp_channel a b 0 = a := by
  have h : (a : ℚ) + ((b : ℚ) - (a : ℚ)) * 0 = (a : ℚ) := by ring
  rw [lerp_channel, h, pyInt_intCast a ha]

theorem lerp_channel_one (a b : ℤ) (hb : 0 ≤ b) : lerp_channel a b 1 = b := by
  have h : (a : ℚ) + ((b : ℚ) - (a : ℚ)) * 1 = (b : ℚ) := by ring
  rw [lerp_channel, h, pyInt_intCast b hb]

theorem foldl_hlines (l : List ℕ) (c : Canvas) (x y : ℕ) :
    (l.foldl (fun acc r => drawHLine acc r (gradientColor r)) c) x y =
      if y ∈ l then gradientColor y else c x y := by
  induction l generalizing c with
  | nil => simp
  | cons a l ih =>
      rw [List.foldl_cons, ih]
      by_cases hl : y ∈ l
      · simp [hl]
      · by_cases ha : y = a
        · subst ha
          simp [hl, drawHLine]
        · simp [hl, ha, drawHLine]

theorem draw_gradient_apply (c : Canvas) (x y : ℕ) (hy : y < H) :
    draw_gradient c x y = gradientColor y := by
  rw [draw_gradient, foldl_hlines]
  simp [List.mem_range, hy]

/-- C2: for colors with integer components in [0, 255] and interpolation
parameter `t ∈ [0, 1]`, `lerp_color` computes each output channel as
`floor(a + (b - a) * t)`; in particular at `t = 0` it returns the first
color exactly and at `t = 1` the second color exactly. -/
theorem lerp_color_floor_boundary (c1 c2 : Color) (t : ℚ)
    (h1 : inRange c1) (h2 : inRange c2) (ht0 : 0 ≤ t) (ht1 : t ≤ 1) :
    lerp_color c1 c2 t =
      (⌊(c1.1 : ℚ) + ((c2.1 : ℚ) - (c1.1 : ℚ)) * t⌋,
       ⌊(c1.2.1 : ℚ) + ((c2.2.1 : ℚ) - (c1.2.1 : ℚ)) * t⌋,
       ⌊(c1.2.2 : ℚ) + ((c2.2.2 : ℚ) - (c1.2.2 : ℚ)) * t⌋) ∧
    lerp_color c1 c2 0 = c1 ∧ lerp_color c1 c2 1 = c2 := by
  obtain ⟨ha1, _, ha2, _, ha3, _⟩ := h1
  obtain ⟨hb1, _, hb2, _, hb3, _⟩ := h2
  refine ⟨?_, ?_, ?_⟩
  · rw [lerp_color, lerp_channel_floor _ _ _ ha1 hb1 ht0 ht1,
      lerp_channel_floor _ _ _ ha2 hb2 ht0 ht1,
      lerp_channel_floor _ _ _ ha3 hb3 ht0 ht1]
  · rw [lerp_color, lerp_channel_zero _ _ ha1, lerp_channel_zero _ _ ha2,
      lerp_channel_zero _ _ ha3]
    rfl
  · rw [lerp_color, lerp_channel_one _ _ hb1, lerp_channel_one _ _ hb2,
      lerp_channel_one _ _ hb3]
    rfl

theorem lerp_color_floor_boundary_witness :
    inRange BG_TOP ∧ inRange BG_MID ∧
    (lerp_color BG_TOP BG_MID (1/2) =
      (⌊(BG_TOP.1 : ℚ) + ((BG_MID.1 : ℚ) - (BG_TOP.1 : ℚ)) * (1/2)⌋,
       ⌊(BG_TOP.2.1 : ℚ) + ((BG_MID.2.1 : ℚ) - (BG_TOP.2.1 : ℚ)) * (1/2)⌋,
       ⌊(BG_TOP.2.2 : ℚ) + ((BG_MID.2.2 : ℚ) - (BG_TOP.2.2 : ℚ)) * (1/2)⌋) ∧
     lerp_color BG_TOP BG_MID 0 = BG_TOP ∧ lerp_color BG_TOP BG_MID 1 = BG_MID) :=
  ⟨by norm_num [inRange, BG_TOP], by norm_num [inRange, BG_MID],
   lerp_color_floor_boundary BG_TOP BG_MID (1/2)
     (by norm_num [inRange, BG_TOP]) (by norm_num [inRange, BG_MID])
     (by norm_num) (by norm_num)⟩

/-- C3: after `draw_gradient`, pixel color depends only on the row: rows
`y ≤ mid_y` get `lerp_color BG_TOP BG_MID (y / mid_y)`, rows `y > mid_y`
get `lerp_color BG_MID BG_BOT ((y - mid_y) / (H - mid_y))`, and within a
row all pixels are equal. -/
theorem draw_gradient_rows (c : Canvas) (x x2 y : ℕ) (hy : y < H) :
    draw_gradient c x y = draw_gradient c x2 y ∧
    ((y : ℤ) ≤ mid_y →
      draw_gradient c x y = lerp_color BG_TOP BG_MID ((y : ℚ) / (mid_y : ℚ))) ∧
    (mid_y < (y : ℤ) →
      draw_gradient c x y =
        lerp_color BG_MID BG_BOT (((y : ℚ) - (mid_y : ℚ)) / ((H : ℚ) - (mid_y : ℚ)))) := by
  refine ⟨(draw_gradient_apply c x y hy).trans (draw_gradient_apply c x2 y hy).symm,
    fun h => ?_, fun h => ?_⟩
  · rw [draw_gradient_apply c x y hy, gradientColor, if_pos h]
  · rw [draw_gradient_apply c x y hy, gradientColor, if_neg (not_le.mpr h)]

theorem draw_gradient_rows_witness :
    (5 : ℕ) < H ∧
    (draw_gradient (fun _ _ => BG_TOP) 0 5 = draw_gradient (fun _ _ => BG_TOP) 7 5 ∧
     ((5 : ℤ) ≤ mid_y →
       draw_gradient (fun _ _ => BG_TOP) 0 5 =
         lerp_color BG_TOP BG_MID ((5 : ℚ) / (mid_y : ℚ))) ∧
     (mid_y < (5 : ℤ) →
       draw_gradient (fun _ _ => BG_TOP) 0 5 =
         lerp_color BG_MID BG_BOT (((5 : ℚ) - (mid_y : ℚ)) / ((H : ℚ) - (mid_y : ℚ))))) :=
  ⟨by norm_num [H],
   draw_gradient_rows (fun _ _ => BG_TOP) 0 7 5 (by norm_num [H])⟩

theorem gradientColor_last : gradientColor (H - 1) = BG_BOT := by
  have hy : ¬ ((H - 1 : ℕ) : ℤ) ≤ mid_y := by
    rw [mid_y_eq]
    norm_num [H]
  rw [gradientColor, if_neg hy, mid_y_eq]
  simp only [lerp_color, lerp_channel, BG_MID, BG_BOT]
  refine Prod.ext ?_ (Prod.ext ?_ ?_)
  · exact pyInt_eq_of _ 13 (by norm_num [H]) (by norm_num [H]) (by norm_num [H])
  · exact pyInt_eq_of _ 0 (by norm_num [H]) (by norm_num [H]) (by norm_num [H])
  · exact pyInt_eq_of _ 32 (by norm_num [H]) (by norm_num [H]) (by norm_num [H])

theorem gradientColor_mid : gradientColor 1118 = BG_MID := by
  have hy : ((1118 : ℕ) : ℤ) ≤ mid_y := by
    rw [mid_y_eq]
    norm_num
  rw [gradientColor, if_pos hy, mid_y_eq]
  simp only [lerp_color, lerp_channel, BG_TOP, BG_MID]
  refine Prod.ext ?_ (Prod.ext ?_ ?_)
  · exact pyInt_eq_of _ 26 (by norm_num) (by norm_num) (by norm_num)
  · exact pyInt_eq_of _ 5 (by norm_num) (by norm_num) (by norm_num)
  · exact pyInt_eq_of _ 48 (by norm_num) (by norm_num) (by norm_num)

/-- C10 counterexample: the bottom stop color `BG_BOT` does appear
exactly on the canvas produced by `draw_gradient`: the last row
`y = H - 1` is exactly `BG_BOT` even though its interpolation parameter
is strictly below 1. -/
theorem gradient_bgbot_appears :
    draw_gradient (fun _ _ => BG_TOP) 0 (H - 1) = BG_BOT ∧
    (((H - 1 : ℕ) : ℚ) - (mid_y : ℚ)) / ((H : ℚ) - (mid_y : ℚ)) < 1 := by
  constructor
  · rw [draw_gradient_apply _ _ _ (by norm_num [H])]
    exact gradientColor_last
  · rw [mid_y_eq]
    norm_num [H]

/-- C10 amended: the last row `y = H - 1` receives interpolation
parameter `t = (H - 1 - mid_y) / (H - mid_y) < 1`, yet integer
truncation makes its color exactly `BG_BOT`, so the bottom stop color
does appear on the canvas after `draw_gradient`; the midpoint row
`y = mid_y = 1118` receives the interior stop color `BG_MID` exactly. -/
theorem gradient_bottom_amended :
    (((H - 1 : ℕ) : ℚ) - (mid_y : ℚ)) / ((H : ℚ) - (mid_y : ℚ)) < 1 ∧
    gradientColor (H - 1) = BG_BOT ∧
    (∀ c : Canvas, ∀ x : ℕ, draw_gradient c x (H - 1) = BG_BOT) ∧
    mid_y = 1118 ∧ gradientColor 1118 = BG_MID := by
  refine ⟨?_, gradientColor_last, fun c x => ?_, mid_y_eq, gradientColor_mid⟩
  · rw [mid_y_eq]
    norm_num [H]
  · rw [draw_gradient_apply _ _ _ (by norm_num [H])]
    exact gradientColor_last

/-- A loaded font handle, exposing Pillow text measurement
`font.getbbox(s) = (x0, y0, x1, y1)`. -/
structure Font where
  getbbox : String → ℤ × ℤ × ℤ × ℤ

/-- Model of `ImageFont.load_default()`: the library bitmap fallback
font; its metrics are unspecified by the source, so they are fixed
arbitrarily here. -/
def load_default : Font := ⟨fun _ => (0, 0, 0, 0)⟩

/-- The `try: ImageFont.truetype(...) except: ImageFont.load_default()`
pattern in `draw_text`: a missing font file (`none`) is replaced by the
library default font. -/
def tryFont (file : Option Font) : Font :=
  match file with
  | some f => f
  | none => load_default

/-- A raster image file as loaded from disk, abstracted to its mode and
pixel dimensions. -/
structure PILFile where
  mode : String
  w : ℕ
  h : ℕ

/-- The external inputs the script can observe: the icon file at
`ICON_PATH` and the two font files; `none` models a missing or
unreadable file. -/
structure Env where
  icon : Option PILFile
  fontBold : Option Font
  fontReg : Option Font

/-- A Pillow image as the pipeline threads it: mode and dimensions. -/
structure Img where
  mode : String
  w : ℕ
  h : ℕ

/-- Pillow `Image.new(mode, (w, h), color)`. -/
def imageNew (mode : String) (w h : ℕ) : Img := ⟨mode, w, h⟩

/-- Pillow `img.convert(mode)`: changes the mode, keeps dimensions. -/
def convert (img : Img) (mode : String) : Img := { img with mode := mode }

/-- Pillow `img.resize((w, h), LANCZOS)`: changes dimensions, keeps the
mode. -/
def resize (img : Img) (w h : ℕ) : Img := { img with w := w, h := h }

/-- Glow circle radius: `radius = 450`. -/
def glow_radius : ℕ := 450

/-- Glow center x: `cx = W // 2`. -/
def glow_cx : ℤ := (W : ℤ).fdiv 2

/-- Glow center y: `cy = int(H * 0.30)`. -/
def glow_cy : ℤ := pyInt ((H : ℚ) * (30 / 100))

/-- Python `range(radius, 0, -1)`: the radii 450, 449, …, 1. -/
def glowRadii : List ℕ := (List.range glow_radius).map (fun i => glow_radius - i)

/-- Loop body values in `draw_glow`: `t = 1.0 - (r / radius)` and
`alpha = int(t * t * 80)`. -/
def glowAlpha (r : ℕ) : ℤ :=
  pyInt ((1 - (r : ℚ) / (glow_radius : ℚ)) * (1 - (r : ℚ) / (glow_radius : ℚ)) * 80)

/-- One drawing / compositing operation recorded from the glow stage. -/
inductive GlowOp where
  | ellipse (bbox : ℤ × ℤ × ℤ × ℤ) (color : Color) (alpha : ℤ)
  | gaussianBlur (radius : ℚ)
  | alphaComposite

/-- Source `draw_glow`, as the sequence of operations it performs on the
glow layer and canvas: the loop draws one concentric filled circle per
radius in `range(radius, 0, -1)` with fill `(*PURPLE, alpha)`, then the
layer is blurred with `GaussianBlur(radius=60)`, then alpha-composited
over the existing canvas. -/
def draw_glow_ops : List GlowOp :=
  (glowRadii.foldl
    (fun acc (r : ℕ) =>
      acc ++ [GlowOp.ellipse
        (glow_cx - (r : ℤ), glow_cy - (r : ℤ), glow_cx + (r : ℤ), glow_cy + (r : ℤ))
        PURPLE (glowAlpha r)])
    []) ++ [GlowOp.gaussianBlur 60, GlowOp.alphaComposite]

/-- Source `draw_glow(img)` at the canvas level: the in-place paste of
the composite leaves mode and dimensions unchanged. -/
def draw_glow (img : Img) : Img := img

/-- Source `draw_scanlines(img)`: `alpha_composite(img.convert(RGBA),
overlay)` yields an RGBA image of the same size. -/
def draw_scanlines (img : Img) : Img := convert img "RGBA"

/-- Icon size: `216` (72px at 3x). -/
def icon_size : ℤ := 216

/-- Icon top edge: `icon_y = int(H * 0.34)`. -/
def icon_y : ℤ := pyInt ((H : ℚ) * (34 / 100))

/-- Source `draw_icon(img)` given the successfully opened icon file:
resizing, masking and pasting keep the canvas mode and dimensions; the
stage returns the canvas and `icon_y + icon_size`. -/
def draw_icon (icon : PILFile) (img : Img) : Img × ℤ :=
  (img, icon_y + icon_size)

/-- Title string drawn by `draw_text`. -/
def title_text : String := "NOMO"

/-- Inter-character spacing: `spacing = 24`. -/
def title_spacing : ℤ := 24

/-- Per-character widths of the title: `cb = font.getbbox(ch)` and
`cw = cb[2] - cb[0]` for each character. -/
def char_widths (font : Font) : List ℤ :=
  title_text.toList.map (fun ch =>
    (font.getbbox (String.singleton ch)).2.2.1 - (font.getbbox (String.singleton ch)).1)

/-- Source `total_w`: the summed measured character widths plus
`spacing * (len(title_text) - 1)`. -/
def total_w (font : Font) : ℤ :=
  (char_widths font).sum + title_spacing * ((title_text.length : ℤ) - 1)

/-- Source `title_x = (W - total_w) // 2` (Python floor division). -/
def title_x (font : Font) : ℤ := ((W : ℤ) - total_w font).fdiv 2

/-- Tagline string drawn by `draw_text`. -/
def tag_text : String := "FOCUS  ·  GROW  ·  COLLECT"

/-- Source `draw_text(img, below_icon_y)`: fonts are loaded through the
`try/except` fallback, the title bbox height `th = bbox[3] - bbox[1]`
and tagline bbox fix the vertical layout, the glow and text passes keep
the canvas RGBA at the same size, and the stage returns the canvas and
`tag_y + (tag_bbox[3] - tag_bbox[1])`. -/
def draw_text (img : Img) (below_icon_y : ℤ) (fontBold fontReg : Option Font) :
    Img × ℤ :=
  let font_title := tryFont fontBold
  let bbox := font_title.getbbox title_text
  let th := bbox.2.2.2 - bbox.2.1
  let font_tag := tryFont fontReg
  let tag_bbox := font_tag.getbbox tag_text
  let title_y := below_icon_y + 60
  let tag_y := title_y + th + 36
  (convert img "RGBA", tag_y + (tag_bbox.2.2.2 - tag_bbox.2.1))

/-- Source `draw_loading_bar(img, below_tag_y)`: all drawing is in place
or pasted back at the original size, keeping mode and dimensions. -/
def draw_loading_bar (img : Img) (below_tag_y : ℤ) : Img := img

/-- One image entry of the asset-catalog manifest. -/
structure ManifestImage where
  idiom : String
  filename : String
  scale : String

/-- The `info` object of the manifest. -/
structure ManifestInfo where
  version : ℕ
  author : String

/-- The manifest structure of `Contents.json`. -/
structure Manifest where
  images : List ManifestImage
  info : ManifestInfo

/-- The literal `Contents.json` content written by `main`. -/
def contents : Manifest :=
  { images :=
      [⟨"universal", "splash-1x.png", "1x"⟩,
       ⟨"universal", "splash-2x.png", "2x"⟩,
       ⟨"universal", "splash-3x.png", "3x"⟩],
    info := ⟨1, "xcode"⟩ }

/-- One file written into the output directory. -/
inductive FileWrite where
  | png (filename : String) (w h : ℕ) (mode : String)
  | manifest (filename : String) (m : Manifest)

/-- The PNG saves among a list of writes, as
`(filename, width, height, mode)`. -/
def pngWrites (ws : List FileWrite) : List (String × ℕ × ℕ × String) :=
  ws.filterMap (fun fw =>
    match fw with
    | .png n w h m => some (n, w, h, m)
    | .manifest _ _ => none)

/-- The manifest writes among a list of writes. -/
def manifestWrites (ws : List FileWrite) : List (String × Manifest) :=
  ws.filterMap (fun fw =>
    match fw with
    | .png _ _ _ _ => none
    | .manifest n m => some (n, m))

/-- The files a run leaves on disk: none when it failed. -/
def writesOf (r : Except String (List FileWrite)) : List FileWrite :=
  (r.toOption).getD []

/-- Source `main()`: thread the canvas through the stages, convert to
RGB, save the 3x canvas as-is, the `W*2//3 × H*2//3` resize as 2x, the
`W//3 × H//3` resize as 1x, then write `Contents.json`.  `draw_icon`
opens the icon file; when it is missing the I/O error propagates out of
`main` before any file is saved, and nothing later catches it. -/
def main (env : Env) : Except String (List FileWrite) :=
  let img := imageNew "RGB" W H
  let img := convert img "RGBA"
  let img := draw_glow img
  let img := draw_scanlines img
  match env.icon with
  | none => Except.error "FileNotFoundError: app-icon.png"
  | some icon =>
    let r1 := draw_icon icon img
    let r2 := draw_text r1.1 r1.2 env.fontBold env.fontReg
    let img := draw_loading_bar r2.1 r2.2
    let img := convert img "RGB"
    let img2 := resize img (W * 2 / 3) (H * 2 / 3)
    let img1 := resize img (W / 3) (H / 3)
    Except.ok
      [FileWrite.png "splash-3x.png" img.w img.h img.mode,
       FileWrite.png "splash-2x.png" img2.w img2.h img2.mode,
       FileWrite.png "splash-1x.png" img1.w img1.h img1.mode,
       FileWrite.manifest "Contents.json" contents]

/-- A concrete icon file for instantiating the pipeline. -/
def sampleIcon : PILFile := ⟨"RGBA", 512, 512⟩

/-- An input environment in which the icon file is present. -/
def envWithIcon : Env := ⟨some sampleIcon, none, none⟩

/-- An input environment in which the icon file is missing. -/
def envNoIcon : Env := ⟨none, none, none⟩

theorem foldl_append_map {α β : Type} (l : List α) (f : α → β) (acc : List β) :
    l.foldl (fun a x => a ++ [f x]) acc = acc ++ l.map f := by
  induction l generalizing acc with
  | nil => simp
  | cons a l ih => simp [ih]

theorem draw_glow_ops_eq :
    draw_glow_ops =
      (glowRadii.map (fun r : ℕ =>
        GlowOp.ellipse
          (glow_cx - (r : ℤ), glow_cy - (r : ℤ), glow_cx + (r : ℤ), glow_cy + (r : ℤ))
          PURPLE (glowAlpha r)))
      ++ [GlowOp.gaussianBlur 60, GlowOp.alphaComposite] := by
  rw [draw_glow_ops, foldl_append_map]
  simp

/-- C9: `draw_glow` renders the glow as concentric filled circles going
down from the full radius — the k-th circle drawn has radius `450 - k`,
purple fill and alpha `int(t * t * 80)` with `t = 1 - r / radius` — then
applies a Gaussian blur, then alpha-composites the layer over the
existing canvas, with nothing else in the operation sequence. -/
theorem draw_glow_structure (k : ℕ) (hk : k < glow_radius) :
    draw_glow_ops[k]? =
      some (GlowOp.ellipse
        (glow_cx - ((glow_radius - k : ℕ) : ℤ), glow_cy - ((glow_radius - k : ℕ) : ℤ),
         glow_cx + ((glow_radius - k : ℕ) : ℤ), glow_cy + ((glow_radius - k : ℕ) : ℤ))
        PURPLE
        (pyInt ((1 - ((glow_radius - k : ℕ) : ℚ) / (glow_radius : ℚ)) *
                (1 - ((glow_radius - k : ℕ) : ℚ) / (glow_radius : ℚ)) * 80))) ∧
    draw_glow_ops[glow_radius]? = some (GlowOp.gaussianBlur 60) ∧
    draw_glow_ops[glow_radius + 1]? = some GlowOp.alphaComposite ∧
    draw_glow_ops.length = glow_radius + 2 := by
  have hlen : glowRadii.length = glow_radius := by simp [glowRadii]
  rw [draw_glow_ops_eq]
  refine ⟨?_, ?_, ?_, ?_⟩
  · rw [List.getElem?_append_left (by simp [hlen, hk])]
    simp [glowRadii, List.getElem?_map, List.getElem?_range, hk, glowAlpha]
  · rw [List.getElem?_append_right (by simp [hlen])]
    simp [hlen]
  · rw [List.getElem?_append_right (by simp [hlen])]
    simp [hlen]
  · simp [hlen]

theorem draw_glow_structure_witness :
    0 < glow_radius ∧
    (draw_glow_ops[0]? =
      some (GlowOp.ellipse
        (glow_cx - ((glow_radius - 0 : ℕ) : ℤ), glow_cy - ((glow_radius - 0 : ℕ) : ℤ),
         glow_cx + ((glow_radius - 0 : ℕ) : ℤ), glow_cy + ((glow_radius - 0 : ℕ) : ℤ))
        PURPLE
        (pyInt ((1 - ((glow_radius - 0 : ℕ) : ℚ) / (glow_radius : ℚ)) *
                (1 - ((glow_radius - 0 : ℕ) : ℚ) / (glow_radius : ℚ)) * 80))) ∧
     draw_glow_ops[glow_radius]? = some (GlowOp.gaussianBlur 60) ∧
     draw_glow_ops[glow_radius + 1]? = some GlowOp.alphaComposite ∧
     draw_glow_ops.length = glow_radius + 2) :=
  ⟨by norm_num [glow_radius], draw_glow_structure 0 (by norm_num [glow_radius])⟩

/-- C6: `total_w` is the sum of the individually measured character
widths of NOMO plus `spacing * (len - 1)`, `title_x = (W - total_w) // 2`,
and consequently the horizontal center of the title block lies within
one pixel of the canvas center `W / 2`, whatever widths the font
measures. -/
theorem title_block_centered (font : Font) :
    total_w font =
      (char_widths font).sum + title_spacing * ((title_text.length : ℤ) - 1) ∧
    title_x font = ((W : ℤ) - total_w font).fdiv 2 ∧
    |((title_x font : ℚ) + (total_w font : ℚ) / 2) - (W : ℚ) / 2| ≤ 1 := by
  refine ⟨rfl, rfl, ?_⟩
  rw [title_x]
  set d : ℤ := (W : ℤ) - total_w font with hd
  have h1 : (2 : ℤ) * d.fdiv 2 + d.fmod 2 = d := Int.fdiv_add_fmod d 2
  have h2 : (0 : ℤ) ≤ d.fmod 2 := Int.fmod_nonneg' d (by norm_num)
  have h3 : d.fmod 2 < 2 := Int.fmod_lt_of_pos d (by norm_num)
  have h1q : (2 : ℚ) * ((d.fdiv 2 : ℤ) : ℚ) + ((d.fmod 2 : ℤ) : ℚ) = ((d : ℤ) : ℚ) := by
    exact_mod_cast h1
  have h2q : (0 : ℚ) ≤ ((d.fmod 2 : ℤ) : ℚ) := by exact_mod_cast h2
  have h3q : ((d.fmod 2 : ℤ) : ℚ) < 2 := by exact_mod_cast h3
  have hdq : ((d : ℤ) : ℚ) = (W : ℚ) - ((total_w font : ℤ) : ℚ) := by
    rw [hd]
    push_cast
    ring
  rw [abs_le]
  constructor <;> linarith

/-- C1: with the icon file present, running `main` to completion writes
exactly three PNG files: `splash-3x.png` at 1290×2796 (the native canvas
saved as-is), `splash-2x.png` at 860×1864 and `splash-1x.png` at
430×932, each saved in RGB mode. -/
theorem main_three_pngs (env : Env) (icon : PILFile) (h : env.icon = some icon) :
    pngWrites (writesOf (main env)) =
      [("splash-3x.png", 1290, 2796, "RGB"),
       ("splash-2x.png", 860, 1864, "RGB"),
       ("splash-1x.png", 430, 932, "RGB")] := by
  rcases env with ⟨i, fb, fr⟩
  simp only [Env.icon] at h
  subst h
  rfl

theorem main_three_pngs_witness :
    envWithIcon.icon = some sampleIcon ∧
    pngWrites (writesOf (main envWithIcon)) =
      [("splash-3x.png", 1290, 2796, "RGB"),
       ("splash-2x.png", 860, 1864, "RGB"),
       ("splash-1x.png", 430, 932, "RGB")] :=
  ⟨rfl, main_three_pngs envWithIcon sampleIcon rfl⟩

/-- C4: when the icon file is missing or unreadable, the run propagates
an I/O error that nothing catches, and fails before any of the three
PNG files or the manifest is written: no file of the run reaches disk. -/
theorem main_icon_error (env : Env) (h : env.icon = none) :
    main env = Except.error "FileNotFoundError: app-icon.png" ∧
    writesOf (main env) = [] := by
  rcases env with ⟨i, fb, fr⟩
  simp only [Env.icon] at h
  subst h
  exact ⟨rfl, rfl⟩

theorem main_icon_error_witness :
    envNoIcon.icon = none ∧
    (main envNoIcon = Except.error "FileNotFoundError: app-icon.png" ∧
     writesOf (main envNoIcon) = []) :=
  ⟨rfl, main_icon_error envNoIcon rfl⟩

/-- C5: in `draw_text`, a missing font file — title or tagline — is
caught and replaced by the library default font: loading goes through
`tryFont`, which yields `load_default` exactly when the file is missing,
`draw_text` behaves as if the default font had been supplied, and the
run still succeeds for every font availability whenever the icon is
present, while a missing icon is the pipeline's only failure. -/
theorem font_fallback (icon : PILFile) (fb fr : Option Font) (img : Img) (y : ℤ) :
    tryFont none = load_default ∧
    (∀ f : Font, tryFont (some f) = f) ∧
    draw_text img y none fr = draw_text img y (some load_default) fr ∧
    draw_text img y fb none = draw_text img y fb (some load_default) ∧
    (∃ ws, main ⟨some icon, fb, fr⟩ = Except.ok ws) ∧
    (∀ env : Env, (∃ e, main env = Except.error e) ↔ env.icon = none) := by
  refine ⟨rfl, fun f => rfl, rfl, rfl, ⟨_, rfl⟩, fun env => ?_⟩
  rcases env with ⟨i, fb2, fr2⟩
  cases i with
  | none => exact ⟨fun _ => rfl, fun _ => ⟨_, rfl⟩⟩
  | some icn =>
      constructor
      · rintro ⟨e, he⟩
        exact absurd he (by simp [main])
      · intro hcontra
        exact absurd hcontra (by simp)

/-- C7: the pipeline is deterministic — `main` is a function of exactly
the icon file and the two font files, reading no arguments, environment,
clock or randomness — so two runs on identical inputs produce identical
outputs. -/
theorem main_deterministic (e1 e2 : Env) (h : e1 = e2) : main e1 = main e2 := by
  rw [h]

theorem main_deterministic_witness : main envWithIcon = main envWithIcon :=
  main_deterministic envWithIcon envWithIcon rfl

/-- C8: the manifest `Contents.json` written by `main` lists exactly
three image entries whose filenames are exactly the three saved PNG
filenames with scales 1x, 2x, 3x respectively, plus an info object with
version 1 and an author field. -/
theorem manifest_contents (env : Env) (icon : PILFile) (h : env.icon = some icon) :
    manifestWrites (writesOf (main env)) = [("Contents.json", contents)] ∧
    contents.images.map ManifestImage.filename =
      ["splash-1x.png", "splash-2x.png", "splash-3x.png"] ∧
    contents.images.map ManifestImage.scale = ["1x", "2x", "3x"] ∧
    contents.images.map ManifestImage.filename =
      ((pngWrites (writesOf (main env))).map Prod.fst).reverse ∧
    contents.info.version = 1 ∧ contents.info.author = "xcode" := by
  rcases env with ⟨i, fb, fr⟩
  simp only [Env.icon] at h
  subst h
  exact ⟨rfl, rfl, rfl, rfl, rfl, rfl⟩

theorem manifest_contents_witness :
    envWithIcon.icon = some sampleIcon ∧
    (manifestWrites (writesOf (main envWithIcon)) = [("Contents.json", contents)] ∧
     contents.images.map ManifestImage.filename =
       ["splash-1x.png", "splash-2x.png", "splash-3x.png"] ∧
     contents.images.map ManifestImage.scale = ["1x", "2x", "3x"] ∧
     contents.images.map ManifestImage.filename =
       ((pngWrites (writesOf (main envWithIcon))).map Prod.fst).reverse ∧
     contents.info.version = 1 ∧ contents.info.author = "xcode") :=
  ⟨rfl, manifest_contents envWithIcon sampleIcon rfl⟩

end GenerateSplash
